import Mathlib

/-!
Shallow embedding of `projectq/ops/_noise.py` (noise-injecting meta gates).

Python floats are modelled by `ℚ` (every float is a rational, and every
arithmetic step the claims exercise is exact at the values involved);
the sampled real magnitudes feeding `cos`/`sin` in the two-axis variant
are modelled by `ℝ`.  A sampler (`pdf` callable) is modelled as a pure
function from its call arguments and a draw index to the value returned
by that draw; the draw index plays the role of the sampler's hidden
state and is threaded explicitly by the operations that consume samples.
Draws of the `random.random()` source used by `failure` are passed as an
explicit parameter `u` ranging over the half-open interval `[0, 1)`.
Qubit-register arguments (after `BasicGate.make_tuple_of_qureg`) are a
list of quregs, each qureg being a list of qubit ids.
-/

/-- A qureg: one element of the tuple produced by `make_tuple_of_qureg`. -/
def Qureg : Type := List Nat

deriving instance DecidableEq, Repr for Qureg

/-- A sampling distribution (`pdf` callable): given the stored call
arguments and the index of the draw, returns the sampled value.
Single-valued samplers (used by the rotation variants). -/
def Pdf : Type := List ℚ → Nat → ℚ

/-- A pair-valued sampler as expected by `NoisyCNOTGate`: each draw
returns the (control, target) noise magnitudes. -/
def Pdf2 : Type := List ℚ → Nat → ℚ × ℚ

/-- From `NoisyCNOTGate.__init__`: `pdf0` extracts the first component
of a pair-valued sampler (control noise). -/
def pdf0 (pdf : Pdf2) : Pdf := fun args k => (pdf args k).1

/-- From `NoisyCNOTGate.__init__`: `pdf1` extracts the second component
of a pair-valued sampler (target noise). -/
def pdf1 (pdf : Pdf2) : Pdf := fun args k => (pdf args k).2

/-- `LocalNoiseBase.failure`: `if self._frate and random.random() > 1.-self._frate:
return True; return False`.  `u` is the value drawn by `random.random()`
(a value in `[0, 1)`); a zero failure rate is falsy in Python, so the
draw is never compared in that case. -/
def LocalNoiseBase.failure (frate : ℚ) (u : ℚ) : Bool :=
  if frate ≠ 0 ∧ u > 1 - frate then true else false

/-- Gate identities that can be handed to `inject_noise`.  `Rx`, `Ry`,
`Rz` are the rotation gate classes, `CNOT` the canonical shortcut
object, `H` the imported-but-unmatched Hadamard, and `other n` stands
for any further gate object. -/
inductive Gate : Type
| Rx : Gate
| Ry : Gate
| Rz : Gate
| CNOT : Gate
| H : Gate
| other : Nat → Gate
deriving DecidableEq, Repr

/-- The `__name__` of a gate class, as read by
`NoisyAngleGateFactory.get_name`. -/
def Gate.name : Gate → String
| .Rx => "Rx"
| .Ry => "Ry"
| .Rz => "Rz"
| .CNOT => "CNOT"
| .H => "H"
| .other n => "G" ++ toString n

/-- An instance of a single-angle rotation gate class, e.g. `Rx(0.5)`:
its only datum relevant here is the stored `angle`. -/
structure RotInstance : Type where
  angle : ℚ
deriving DecidableEq, Repr

/-- `NoisyAngleGate`: wraps a rotation-gate instance together with its
noise profile (`pdf`, `frate`, `args` from `LocalNoiseBase`). -/
structure NoisyAngleGate : Type where
  gate : RotInstance
  pdf : Pdf
  frate : ℚ
  args : List ℚ

/-- `LocalNoiseBase.noise`: `self._pdf(*self._args)` at draw index `k`. -/
def NoisyAngleGate.noise (g : NoisyAngleGate) (k : Nat) : ℚ :=
  g.pdf g.args k

/-- An operation submitted to the application pipeline by the
angle-perturbation variant: either a rotation-gate instance with some
angle applied to a qureg, or the identity gate applied to a qureg (the
latter is what a failure branch would emit; this variant never does). -/
inductive AngleOp : Type
| rotApp : ℚ → Qureg → AngleOp
| idApp : Qureg → AngleOp
deriving DecidableEq, Repr

/-- `NoisyAngleGate.__or__`: sample once (`rnd_angle = self.noise()`),
then for each qureg build `gate.__class__(gate.angle + rnd_angle)` and
apply it.  Returns the emitted pipeline operations together with the
advanced draw index (one draw was consumed). -/
def NoisyAngleGate.orOp (g : NoisyAngleGate) (qubits : List Qureg) (k : Nat) :
    List AngleOp × Nat :=
  let rnd := g.noise k
  (qubits.map (fun qb => AngleOp.rotApp (g.gate.angle + rnd) qb), k + 1)

/-- `NoisyAngleGateFactory.__call__`: `NoisyAngleGate(self._type(*args),
self._pdf, self._frate, *self._args)` — building the wrapped rotation
instance from the construction angle. -/
def NoisyAngleGateFactory.callFac (pdf : Pdf) (frate : ℚ) (args : List ℚ)
    (angle : ℚ) : NoisyAngleGate :=
  { gate := { angle := angle }, pdf := pdf, frate := frate, args := args }

/-- The object returned by `inject_noise`: an angle-gate factory bound
to a rotation type, a noisy-CNOT wrapper, or the original gate
unchanged.  The forwarded `pdf` is opaque to the dispatcher (Python
never calls it there), hence the type parameter. -/
inductive InjectResult (α : Type) : Type
| factory : Gate → α → ℚ → List ℚ → InjectResult α
| cnotGate : α → ℚ → List ℚ → InjectResult α
| unchanged : Gate → InjectResult α

/-- `inject_noise(gate, pdf, frate, *args)`: rotation classes get a
`NoisyAngleGateFactory`, the `CNOT` shortcut gets a `NoisyCNOTGate`,
everything else is returned unchanged. -/
def inject_noise {α : Type} (gate : Gate) (pdf : α) (frate : ℚ)
    (args : List ℚ) : InjectResult α :=
  match gate with
  | .Rx => InjectResult.factory Gate.Rx pdf frate args
  | .Ry => InjectResult.factory Gate.Ry pdf frate args
  | .Rz => InjectResult.factory Gate.Rz pdf frate args
  | .CNOT => InjectResult.cnotGate pdf frate args
  | g => InjectResult.unchanged g

/-- `NoisyAngleGateFactory.get_name` (also its `__name__` property):
the wrapped type's `__name__`; only factories expose it. -/
def InjectResult.resName {α : Type} : InjectResult α → Option String
| .factory t _ _ _ => some t.name
| .cnotGate _ _ _ => none
| .unchanged _ => none

/-- The fixed-sequence sampler of the end-to-end scenario: cycles
through `[0.1, -0.1, 0.3]`, ignoring its call arguments. -/
def cyclePdf : Pdf :=
  fun _ k => ([(1 : ℚ)/10, -(1 : ℚ)/10, (3 : ℚ)/10].getD (k % 3) 0)

/-- The gate stored in the shared `CNOT` object's `_gate` slot: the
original `NOT`, or the `NoisyNOTGate` that `NoisyCNOTGate.__init__`
installs (with its profile). -/
inductive TargetGate : Type
| pureNOT : TargetGate
| noisyNOT : Pdf → ℚ → List ℚ → TargetGate

/-- The mutable global state the noisy-CNOT wrapper touches: the `_gate`
slot of the module-level `CNOT` shortcut object.  Every reference to
that shared object in the program reads this one slot. -/
structure GlobalState : Type where
  cnotUnderlying : TargetGate

/-- The `XNoiseGate` built for the control qubit: a `LocalNoiseBase`
carrying only its noise profile. -/
structure XNoiseGate : Type where
  pdf : Pdf
  frate : ℚ
  args : List ℚ

/-- `NoisyCNOTGate`: its own profile (pair-valued sampler) plus the
control-qubit wobble gate.  The wrapped `_gate` is the shared `CNOT`
object, which lives in `GlobalState`, not in the wrapper. -/
structure NoisyCNOTGate : Type where
  pdf : Pdf2
  frate : ℚ
  args : List ℚ
  controlNoise : XNoiseGate

/-- `NoisyCNOTGate.__init__`: store the profile, install a
`NoisyNOTGate` into the shared `CNOT` object's `_gate` slot (a mutation
of the global object), and build the control-qubit `XNoiseGate`. -/
def NoisyCNOTGate.init (pdf : Pdf2) (frate : ℚ) (args : List ℚ)
    (s : GlobalState) : NoisyCNOTGate × GlobalState :=
  ({ pdf := pdf, frate := frate, args := args,
     controlNoise := { pdf := pdf0 pdf, frate := frate, args := args } },
   { s with cnotUnderlying := TargetGate.noisyNOT (pdf1 pdf) frate args })

/-- An operation submitted to the pipeline by `NoisyCNOTGate.__or__`:
identity on a qureg (failure branch), the wrapped noisy CNOT on the two
quregs, or the control-wobble gate on the control qureg. -/
inductive CNOTOp : Type
| idApp : Qureg → CNOTOp
| noisyCNOTApp : Qureg → Qureg → CNOTOp
| controlNoiseApp : Qureg → CNOTOp
deriving DecidableEq, Repr

/-- `NoisyCNOTGate.__or__` on two quregs `(q0, q1)`: if `failure()`
fires (on draw `u`), apply identity to each qureg; otherwise apply the
wrapped gate to both and the control wobble to `qubits[0]`. -/
def NoisyCNOTGate.orOp (frate : ℚ) (u : ℚ) (q0 q1 : Qureg) : List CNOTOp :=
  if LocalNoiseBase.failure frate u then
    [CNOTOp.idApp q0, CNOTOp.idApp q1]
  else
    [CNOTOp.noisyCNOTApp q0 q1, CNOTOp.controlNoiseApp q0]

/-- A generic `LocalNoiseGate` wrapper with an allocation identity: the
`id` field models the Python object identity that `LocalNoiseBase.__eq__`
compares (`self is other`); distinct constructions receive distinct ids. -/
structure Wrapper : Type where
  id : Nat
  gate : Gate
  pdf : Pdf
  frate : ℚ
  args : List ℚ

/-- `LocalNoiseBase.__eq__`: `return self is other` — reference
identity, modelled as equality of allocation ids. -/
def Wrapper.eq (a b : Wrapper) : Bool :=
  a.id == b.id

/-- Constructing a `LocalNoiseGate`: allocate a fresh object (next free
allocation id) holding the gate and profile; returns the wrapper and
the advanced allocation counter. -/
def Wrapper.construct (gate : Gate) (pdf : Pdf) (frate : ℚ) (args : List ℚ)
    (fresh : Nat) : Wrapper × Nat :=
  ({ id := fresh, gate := gate, pdf := pdf, frate := frate, args := args },
   fresh + 1)

/-- `LocalNoiseBase.update_model(pdf, frate, args)`: each keyword that
is not `None` overwrites the corresponding profile field; `None` (here
`Option.none`) leaves it alone.  Modelled on the generic wrapper so the
frame (the wrapped gate, the identity) is visible. -/
def Wrapper.update_model (w : Wrapper) (pdf : Option Pdf) (frate : Option ℚ)
    (args : Option (List ℚ)) : Wrapper :=
  { w with
    pdf := pdf.getD w.pdf,
    frate := frate.getD w.frate,
    args := args.getD w.args }

/-- The two composition orders of the two-axis composite variant:
`XYNoiseGate` (X applied first, then Y) and `YXNoiseGate`. -/
inductive AxisOrder : Type
| XY : AxisOrder
| YX : AxisOrder
deriving DecidableEq, Repr

/-- The order the inverse construction targets: `XYNoiseGate.get_inverse`
builds a `YXNoiseGate` and vice versa. -/
def AxisOrder.swap : AxisOrder → AxisOrder
| .XY => AxisOrder.YX
| .YX => AxisOrder.XY

/-- A two-axis composite gate (`XYNoiseGate` / `YXNoiseGate`): the
order tag plus the fields `__init__` stores — ratio, the derived
weights, and the noise profile. -/
structure TwoAxisGate : Type where
  order : AxisOrder
  ratio : ℚ
  xweight : ℚ
  yweight : ℚ
  pdf : Pdf
  frate : ℚ
  args : List ℚ

/-- `XYNoiseGate.__init__` (inherited by `YXNoiseGate`): store the
ratio and compute `xweight = 0.5*(ratio/(ratio+1.))`,
`yweight = 0.5*(1./(ratio+1.))`. -/
def XYNoiseGate.make (order : AxisOrder) (ratio : ℚ) (pdf : Pdf) (frate : ℚ)
    (args : List ℚ) : TwoAxisGate :=
  { order := order, ratio := ratio,
    xweight := (1 : ℚ)/2 * (ratio / (ratio + 1)),
    yweight := (1 : ℚ)/2 * (1 / (ratio + 1)),
    pdf := pdf, frate := frate, args := args }

/-- `XYNoiseGate.get_inverse` / `YXNoiseGate.get_inverse`: construct
the order-swapped class from `(self._ratio, self._pdf, self._frate,
*self._args)`. -/
def TwoAxisGate.get_inverse (g : TwoAxisGate) : TwoAxisGate :=
  XYNoiseGate.make g.order.swap g.ratio g.pdf g.frate g.args

/-- `XYNoiseGate._Xwobble`: scale the sampled magnitude by `xweight`
and build the X-axis rotation matrix
`[[cos r, -i sin r], [-i sin r, cos r]]`. -/
noncomputable def TwoAxisGate.Xwobble (g : TwoAxisGate) (rnd : ℝ) :
    Matrix (Fin 2) (Fin 2) ℂ :=
  let r := rnd * (g.xweight : ℝ)
  !![(Real.cos r : ℂ), -Complex.I * (Real.sin r : ℂ);
     -Complex.I * (Real.sin r : ℂ), (Real.cos r : ℂ)]

/-- `XYNoiseGate._Ywobble`: scale the sampled magnitude by `yweight`
and build the Y-axis rotation matrix
`[[cos r, -sin r], [sin r, cos r]]`. -/
noncomputable def TwoAxisGate.Ywobble (g : TwoAxisGate) (rnd : ℝ) :
    Matrix (Fin 2) (Fin 2) ℂ :=
  let r := rnd * (g.yweight : ℝ)
  !![(Real.cos r : ℂ), -(Real.sin r : ℂ);
     (Real.sin r : ℂ), (Real.cos r : ℂ)]

/-- The `matrix` property of the two-axis gates, at sampled magnitude
`rnd`: `_Ywobble(rnd)*_Xwobble(rnd)` for `XYNoiseGate` (X applied
first), `_Xwobble(rnd)*_Ywobble(rnd)` for `YXNoiseGate`. -/
noncomputable def TwoAxisGate.matrix (g : TwoAxisGate) (rnd : ℝ) :
    Matrix (Fin 2) (Fin 2) ℂ :=
  match g.order with
  | .XY => g.Ywobble rnd * g.Xwobble rnd
  | .YX => g.Xwobble rnd * g.Ywobble rnd

/-- The single-axis X rotation matrix at magnitude `t`, as the spec
describes it (spec-side definition, for comparison with the code's
`_Xwobble`). -/
noncomputable def specRotX (t : ℝ) : Matrix (Fin 2) (Fin 2) ℂ :=
  !![(Real.cos t : ℂ), -Complex.I * (Real.sin t : ℂ);
     -Complex.I * (Real.sin t : ℂ), (Real.cos t : ℂ)]

/-- The single-axis Y rotation matrix at magnitude `t`, as the spec
describes it (spec-side definition, for comparison with the code's
`_Ywobble`). -/
noncomputable def specRotY (t : ℝ) : Matrix (Fin 2) (Fin 2) ℂ :=
  !![(Real.cos t : ℂ), -(Real.sin t : ℂ);
     (Real.sin t : ℂ), (Real.cos t : ℂ)]

/-- Claim C2: `inject_noise` returns an angle-perturbation factory
bound to the gate type for each of `Rx`, `Ry`, `Rz`, and that factory's
`get_name` equals the original type's `__name__`; it returns the
two-qubit composite wrapper for `CNOT`; and every other gate is
returned unchanged (no exception path exists). -/
theorem inject_noise_dispatch {α : Type} (pdf : α) (frate : ℚ) (args : List ℚ) :
    (inject_noise Gate.Rx pdf frate args
        = InjectResult.factory Gate.Rx pdf frate args ∧
     inject_noise Gate.Ry pdf frate args
        = InjectResult.factory Gate.Ry pdf frate args ∧
     inject_noise Gate.Rz pdf frate args
        = InjectResult.factory Gate.Rz pdf frate args) ∧
    ((inject_noise Gate.Rx pdf frate args).resName = some (Gate.name Gate.Rx) ∧
     (inject_noise Gate.Ry pdf frate args).resName = some (Gate.name Gate.Ry) ∧
     (inject_noise Gate.Rz pdf frate args).resName = some (Gate.name Gate.Rz)) ∧
    inject_noise Gate.CNOT pdf frate args
        = InjectResult.cnotGate pdf frate args ∧
    inject_noise Gate.H pdf frate args = InjectResult.unchanged Gate.H ∧
    (∀ n : Nat, inject_noise (Gate.other n) pdf frate args
        = InjectResult.unchanged (Gate.other n)) :=
  ⟨⟨rfl, rfl, rfl⟩, ⟨rfl, rfl, rfl⟩, rfl, rfl, fun _ => rfl⟩

/-- Claim C4: wrapper equality is reference identity — equality holds
exactly when the allocation ids coincide, every wrapper equals itself,
and two separately-constructed wrappers with identical gate, sampler,
failure rate, and args never compare equal. -/
theorem wrapper_eq_is_reference_identity :
    (∀ w : Wrapper, Wrapper.eq w w = true) ∧
    (∀ a b : Wrapper, Wrapper.eq a b = true ↔ a.id = b.id) ∧
    (∀ (gate : Gate) (pdf : Pdf) (frate : ℚ) (args : List ℚ) (fresh : Nat),
       Wrapper.eq (Wrapper.construct gate pdf frate args fresh).1
         (Wrapper.construct gate pdf frate args
           (Wrapper.construct gate pdf frate args fresh).2).1 = false) := by
  refine ⟨fun w => ?_, fun a b => ?_, fun gate pdf frate args fresh => ?_⟩
  · simp [Wrapper.eq]
  · simp [Wrapper.eq]
  · simp [Wrapper.eq, Wrapper.construct]

/-- Claim C5: constructing a `NoisyCNOTGate` overwrites the `_gate`
slot of the shared module-level `CNOT` object with a `NoisyNOTGate`
(built from the target slice of the sampler); whatever that slot held
before, after construction every reader of the shared object — the
global state, not the wrapper — sees the `NoisyNOTGate`. -/
theorem noisyCNOT_init_mutates_shared_CNOT (pdf : Pdf2) (frate : ℚ)
    (args : List ℚ) (s : GlobalState) :
    ((NoisyCNOTGate.init pdf frate args s).2).cnotUnderlying
        = TargetGate.noisyNOT (pdf1 pdf) frate args ∧
    ((NoisyCNOTGate.init pdf frate args
        { cnotUnderlying := TargetGate.pureNOT }).2).cnotUnderlying
        = TargetGate.noisyNOT (pdf1 pdf) frate args :=
  ⟨rfl, rfl⟩

/-- Claim C6: the inverse of an X-then-Y composite is a Y-then-X
instance built with the same ratio, sampler, failure rate and args, and
vice versa; consequently the double inverse is an instance of the
original variant kind with all fields unchanged. -/
theorem twoAxis_inverse_swap (o : AxisOrder) (r : ℚ) (p : Pdf) (f : ℚ)
    (a : List ℚ) :
    (XYNoiseGate.make o r p f a).get_inverse = XYNoiseGate.make o.swap r p f a ∧
    ((XYNoiseGate.make AxisOrder.XY r p f a).get_inverse).order = AxisOrder.YX ∧
    ((XYNoiseGate.make AxisOrder.YX r p f a).get_inverse).order = AxisOrder.XY ∧
    ((XYNoiseGate.make o r p f a).get_inverse).ratio = r ∧
    ((XYNoiseGate.make o r p f a).get_inverse).pdf = p ∧
    ((XYNoiseGate.make o r p f a).get_inverse).frate = f ∧
    ((XYNoiseGate.make o r p f a).get_inverse).args = a ∧
    ((XYNoiseGate.make o r p f a).get_inverse).get_inverse
        = XYNoiseGate.make o r p f a := by
  refine ⟨rfl, rfl, rfl, rfl, rfl, rfl, rfl, ?_⟩
  cases o <;> rfl

/-- Claim C7: a two-axis composite built with ratio `r` stores
`xweight = 0.5 * (r/(r+1))` and `yweight = 0.5 * (1/(r+1))`, and at
sampled magnitude `m` its exposed matrix is the product of the
single-axis rotation matrices at magnitudes `m * yweight` and
`m * xweight`, taken in the variant's fixed order (Y-rotation times
X-rotation for X-then-Y, and the reverse for Y-then-X). -/
theorem twoAxis_weights_and_matrix (r : ℚ) (p : Pdf) (f : ℚ) (a : List ℚ)
    (m : ℝ) :
    (XYNoiseGate.make AxisOrder.XY r p f a).xweight
        = (0.5 : ℚ) * (r / (r + 1)) ∧
    (XYNoiseGate.make AxisOrder.XY r p f a).yweight
        = (0.5 : ℚ) * (1 / (r + 1)) ∧
    (XYNoiseGate.make AxisOrder.XY r p f a).matrix m
        = specRotY (m * ((XYNoiseGate.make AxisOrder.XY r p f a).yweight : ℝ))
          * specRotX (m * ((XYNoiseGate.make AxisOrder.XY r p f a).xweight : ℝ)) ∧
    (XYNoiseGate.make AxisOrder.YX r p f a).matrix m
        = specRotX (m * ((XYNoiseGate.make AxisOrder.YX r p f a).xweight : ℝ))
          * specRotY (m * ((XYNoiseGate.make AxisOrder.YX r p f a).yweight : ℝ)) := by
  refine ⟨?_, ?_, rfl, rfl⟩
  · norm_num [XYNoiseGate.make]
  · norm_num [XYNoiseGate.make]

/-- Claim C8: the angle-perturbation variant consults neither the
failure rate nor the failure check — its application output is
identical for every failure rate, every qureg receives a perturbed
base-gate instance, and no identity operation is ever emitted. -/
theorem noisyAngleGate_ignores_failure (g : NoisyAngleGate) (f' : ℚ)
    (qubits : List Qureg) (k : Nat) :
    NoisyAngleGate.orOp { g with frate := f' } qubits k = g.orOp qubits k ∧
    (g.orOp qubits k).1
        = qubits.map (fun qr => AngleOp.rotApp (g.gate.angle + g.noise k) qr) ∧
    ((g.orOp qubits k).1.all
        (fun op => match op with
                   | AngleOp.rotApp _ _ => true
                   | AngleOp.idApp _ => false)) = true := by
  refine ⟨rfl, rfl, ?_⟩
  simp [NoisyAngleGate.orOp, List.all_eq_true]

/-- Claim C9: with failure rate 0, `failure` returns `false` for every
draw of the randomness source, so the two-qubit composite always takes
the noisy branch (wrapped gate on both quregs, wobble on the control),
across any number of applications. -/
theorem zero_frate_never_fails (u : ℚ) (q0 q1 : Qureg) (us : List ℚ) :
    LocalNoiseBase.failure 0 u = false ∧
    NoisyCNOTGate.orOp 0 u q0 q1
        = [CNOTOp.noisyCNOTApp q0 q1, CNOTOp.controlNoiseApp q0] ∧
    us.flatMap (fun v => NoisyCNOTGate.orOp 0 v q0 q1)
        = us.flatMap (fun _ =>
            [CNOTOp.noisyCNOTApp q0 q1, CNOTOp.controlNoiseApp q0]) := by
  refine ⟨?_, ?_, ?_⟩
  · simp [LocalNoiseBase.failure]
  · simp [NoisyCNOTGate.orOp, LocalNoiseBase.failure]
  · simp [NoisyCNOTGate.orOp, LocalNoiseBase.failure]

/-- Claim C10: `update_model` replaces exactly the profile fields whose
parameter is supplied, leaves every omitted field unchanged, and
touches nothing else in the wrapper (neither the wrapped gate nor the
object's identity). -/
theorem update_model_frame :
    (∀ (w : Wrapper) (p2 : Pdf) (fo : Option ℚ) (ao : Option (List ℚ)),
       (w.update_model (some p2) fo ao).pdf = p2) ∧
    (∀ (w : Wrapper) (fo : Option ℚ) (ao : Option (List ℚ)),
       (w.update_model none fo ao).pdf = w.pdf) ∧
    (∀ (w : Wrapper) (po : Option Pdf) (f2 : ℚ) (ao : Option (List ℚ)),
       (w.update_model po (some f2) ao).frate = f2) ∧
    (∀ (w : Wrapper) (po : Option Pdf) (ao : Option (List ℚ)),
       (w.update_model po none ao).frate = w.frate) ∧
    (∀ (w : Wrapper) (po : Option Pdf) (fo : Option ℚ) (a2 : List ℚ),
       (w.update_model po fo (some a2)).args = a2) ∧
    (∀ (w : Wrapper) (po : Option Pdf) (fo : Option ℚ),
       (w.update_model po fo none).args = w.args) ∧
    (∀ (w : Wrapper) (po : Option Pdf) (fo : Option ℚ) (ao : Option (List ℚ)),
       (w.update_model po fo ao).gate = w.gate ∧
       (w.update_model po fo ao).id = w.id) ∧
    (∀ w : Wrapper, w.update_model none none none = w) :=
  ⟨fun _ _ _ _ => rfl, fun _ _ _ => rfl, fun _ _ _ _ => rfl, fun _ _ _ => rfl,
   fun _ _ _ _ => rfl, fun _ _ _ => rfl, fun _ _ _ _ => ⟨rfl, rfl⟩,
   fun _ => rfl⟩

/-- Claim C1, counterexample: with the cycling sampler
`[0.1, -0.1, 0.3]`, construction angle `0.5` and failure rate `0`, ONE
application to three qubits emits the perturbed angle `0.6` to all
three qubits — `__or__` samples once before the qubit loop — and not
the per-qubit-fresh sequence `0.6, 0.4, 0.8` the claim asserts. -/
theorem noisyAngle_fresh_sample_per_qubit_cex :
    ((NoisyAngleGateFactory.callFac cyclePdf 0 [] (1/2)).orOp
        [[0], [1], [2]] 0).1
      = [AngleOp.rotApp (6/10) [0], AngleOp.rotApp (6/10) [1],
         AngleOp.rotApp (6/10) [2]] ∧
    (((NoisyAngleGateFactory.callFac cyclePdf 0 [] (1/2)).orOp
        [[0], [1], [2]] 0).1
      = [AngleOp.rotApp (6/10) [0], AngleOp.rotApp (4/10) [1],
         AngleOp.rotApp (8/10) [2]]) = False := by
  constructor
  · norm_num [NoisyAngleGateFactory.callFac, NoisyAngleGate.orOp,
      NoisyAngleGate.noise, cyclePdf]
  · simp only [eq_iff_iff, iff_false]
    norm_num [NoisyAngleGateFactory.callFac, NoisyAngleGate.orOp,
      NoisyAngleGate.noise, cyclePdf]

/-- Claim C1, amended: one sample is drawn per application (not per
qubit) and every qureg of that application receives the base angle plus
that one sample; with the cycling sampler `[0.1, -0.1, 0.3]`,
construction angle `0.5` and failure rate `0`, three successive
single-qubit applications receive the perturbed angles `0.6, 0.4, 0.8`
in that exact order, while a single application to three qubits gives
all three the angle `0.6`. -/
theorem noisyAngle_one_sample_per_application :
    (∀ (g : NoisyAngleGate) (qubits : List Qureg) (k : Nat),
       g.orOp qubits k
         = (qubits.map (fun qr => AngleOp.rotApp (g.gate.angle + g.noise k) qr),
            k + 1)) ∧
    ((NoisyAngleGateFactory.callFac cyclePdf 0 [] (1/2)).orOp [[0]] 0).1
        = [AngleOp.rotApp (6/10) [0]] ∧
    ((NoisyAngleGateFactory.callFac cyclePdf 0 [] (1/2)).orOp [[1]]
        ((NoisyAngleGateFactory.callFac cyclePdf 0 [] (1/2)).orOp [[0]] 0).2).1
        = [AngleOp.rotApp (4/10) [1]] ∧
    ((NoisyAngleGateFactory.callFac cyclePdf 0 [] (1/2)).orOp [[2]]
        ((NoisyAngleGateFactory.callFac cyclePdf 0 [] (1/2)).orOp [[1]]
          ((NoisyAngleGateFactory.callFac cyclePdf 0 [] (1/2)).orOp
            [[0]] 0).2).2).1
        = [AngleOp.rotApp (8/10) [2]] ∧
    ((NoisyAngleGateFactory.callFac cyclePdf 0 [] (1/2)).orOp
        [[0], [1], [2]] 0).1
        = [AngleOp.rotApp (6/10) [0], AngleOp.rotApp (6/10) [1],
           AngleOp.rotApp (6/10) [2]] := by
  refine ⟨fun g qubits k => rfl, ?_, ?_, ?_, ?_⟩ <;>
    norm_num [NoisyAngleGateFactory.callFac, NoisyAngleGate.orOp,
      NoisyAngleGate.noise, cyclePdf]

/-- Claim C3, counterexample: `random.random()` ranges over `[0, 1)`,
and `0` is a possible draw; at failure rate `1` and draw `u = 0` the
test `u > 1 - frate` is `0 > 0`, which is false, so the failure branch
is NOT taken and the noisy operation — not identity — is applied. -/
theorem cnot_frate_one_always_fails_cex :
    (0 : ℚ) ≤ 0 ∧ (0 : ℚ) < 1 ∧
    LocalNoiseBase.failure 1 0 = false ∧
    NoisyCNOTGate.orOp 1 0 [0] [1]
      = [CNOTOp.noisyCNOTApp [0] [1], CNOTOp.controlNoiseApp [0]] := by
  refine ⟨le_refl 0, by norm_num, ?_, ?_⟩
  · norm_num [LocalNoiseBase.failure]
  · norm_num [NoisyCNOTGate.orOp, LocalNoiseBase.failure]

/-- Claim C3, amended: at failure rate `1` the failure branch is taken
for every draw `u` of the randomness source with `0 < u` — that is,
for all possible draws except the single value `u = 0` — and identity
is then applied to each of the two qubits. -/
theorem cnot_frate_one_fails_on_positive_draw (u : ℚ) (q0 q1 : Qureg)
    (h : 0 < u) :
    LocalNoiseBase.failure 1 u = true ∧
    NoisyCNOTGate.orOp 1 u q0 q1 = [CNOTOp.idApp q0, CNOTOp.idApp q1] := by
  have hcond : (1 : ℚ) ≠ 0 ∧ u > 1 - 1 := ⟨one_ne_zero, by simpa using h⟩
  have hfail : LocalNoiseBase.failure 1 u = true := by
    unfold LocalNoiseBase.failure
    rw [if_pos hcond]
  exact ⟨hfail, by simp [NoisyCNOTGate.orOp, hfail]⟩

/-- Witness for the amended C3 theorem at the concrete draw `u = 1/2`. -/
theorem cnot_frate_one_fails_on_positive_draw_witness :
    (0 : ℚ) < 1/2 ∧
    (LocalNoiseBase.failure 1 (1/2) = true ∧
     NoisyCNOTGate.orOp 1 (1/2) [0] [1]
       = [CNOTOp.idApp [0], CNOTOp.idApp [1]]) :=
  ⟨by norm_num,
   cnot_frate_one_fails_on_positive_draw (1/2) [0] [1] (by norm_num)⟩
